import Mathlib

/-!
Verification development for the auto-blogger backend.

The definitions below are a shallow embedding of the TypeScript sources:
* `PipelineService.executePipeline` (pipeline orchestrator),
* `GeminiService.extractImagePrompts` and the stage-4 placeholder
  substitution / cleanup text transforms,
* `PipelineController.streamProgress` (per-topic SSE multiplexer),
* `AgentService.setupScheduler` / `updateCron` / `stopCron` /
  `executeAgentRun` (dynamic scheduler),
* `AgentController.triggerAgent` (manual trigger endpoint).

External effects (the Gemini AI client and the Supabase store) are modelled
by explicit outcome environments: each field records whether the
corresponding awaited call succeeded (`none`) or threw, with the thrown
error rendered as a string (`some e`), exactly mirroring which awaits sit
inside which `try`/`catch` block in the source.
-/

set_option maxRecDepth 10000

/-! ## Pipeline orchestrator (src/unnamed/part_001, `PipelineService.executePipeline`) -/

/-- Article status, from `supabase.service.ts`:
`status: 'draft' | 'processing' | 'review' | 'published'`. -/
inductive ArticleStatus
  | draft
  | processing
  | review
  | published
  deriving DecidableEq

/-- The per-stage boolean success flags of `PipelineResult.stages`. -/
structure StageFlags where
  seoResearch : Bool
  writing : Bool
  humanizing : Bool
  visualGeneration : Bool
  interactive : Bool
  finalReview : Bool
  deriving DecidableEq

/-- The value `executePipeline` resolves with: whether `result.article` was
ever assigned (i.e. `createArticle` succeeded), the stage flags, the
accumulated `errors` strings, and whether the top-level `catch` ran. -/
structure PipelineResult where
  articleCreated : Bool
  stages : StageFlags
  errors : List String
  caughtTop : Bool
  deriving DecidableEq

/-- The persistent store state for the article record after the run:
whether the record exists and, if so, its `status` column.
`createArticle` inserts with status `processing`; the run's terminal write
sets `review`, the top-level catch reverts to `draft`, and a failing revert
write leaves the record at `processing`. -/
structure PipelineStore where
  articleCreated : Bool
  articleStatus : Option ArticleStatus
  deriving DecidableEq

/-- Outcomes of the fallible awaited calls of `executePipeline`, one field
per `try` block (a field covers every await inside that block, since any
of them throwing reaches the same `catch`).  `none` = the block completed,
`some e` = a throw whose JS string rendering is `e`. -/
structure PipelineEnv where
  /-- `suggestSlug` (caught separately; only affects the slug, no error entry). -/
  slugErr : Option String
  /-- `createArticle` (outside every stage `try`; a throw reaches the top catch). -/
  createErr : Option String
  /-- Stage 0 block: categories fetch, `suggestCategory`, find-or-create, update. -/
  categoryErr : Option String
  /-- Stage 1 block: `seoResearch` and the article update. -/
  seoErr : Option String
  /-- Stage 2 block: `writeArticle` and the article update. -/
  writingErr : Option String
  /-- Stage 3 block: `humanizeContent` and the article update. -/
  humanizeErr : Option String
  /-- Stage 4 block: thumbnail/image record/upload/update calls that escape
  the inner catches (e.g. `createArticleImage`) plus the content update. -/
  visualErr : Option String
  /-- Stage 5 block: `generateInteractiveComponent` / `createComponent`. -/
  interactiveErr : Option String
  /-- Stage 6 block: `finalReviewAndRestructure` and the article update. -/
  finalReviewErr : Option String
  /-- The final `updateArticle(id, { status: 'review' })` (outside all stage tries). -/
  reviewUpdateErr : Option String
  /-- The `updateArticle(id, { status: 'draft' })` inside the top-level catch. -/
  revertUpdateErr : Option String
  deriving DecidableEq

/-- Shallow embedding of `PipelineService.executePipeline`.  Returns the
final store state for the article record together with the promise result:
`Except.ok` is normal resolution with the `PipelineResult`, `Except.error`
is a rejection (only possible when the draft-revert write inside the
top-level catch itself throws). -/
def executePipeline (env : PipelineEnv) : PipelineStore × Except String PipelineResult :=
  match env.createErr with
  | some e =>
      -- createArticle threw: top catch runs, `result.article` is null so no
      -- revert write happens; only the top-level entry is pushed.
      (⟨false, none⟩,
        Except.ok ⟨false, ⟨false, false, false, false, false, false⟩,
          ["Pipeline failed: " ++ e], true⟩)
  | none =>
    let errsCat : List String :=
      match env.categoryErr with
      | some e => ["Category assignment failed: " ++ e]
      | none => []
    let seoOk : Bool := env.seoErr.isNone
    let errsSeo : List String :=
      errsCat ++ (match env.seoErr with
        | some e => ["SEO Research failed: " ++ e]
        | none => [])
    match env.writingErr with
    | some e =>
      -- Stage 2 catch pushes its entry then rethrows
      -- `new Error('Critical: Writing stage failed')`, reaching the top catch.
      let errsW := errsSeo ++ ["Writing failed: " ++ e]
      (match env.revertUpdateErr with
        | some re => (⟨true, some ArticleStatus.processing⟩, Except.error re)
        | none =>
          (⟨true, some ArticleStatus.draft⟩,
            Except.ok ⟨true, ⟨seoOk, false, false, false, false, false⟩,
              errsW ++ ["Pipeline failed: Error: Critical: Writing stage failed"], true⟩))
    | none =>
      let humOk : Bool := env.humanizeErr.isNone
      let errsHum : List String :=
        errsSeo ++ (match env.humanizeErr with
          | some e => ["Humanizing failed: " ++ e]
          | none => [])
      let visOk : Bool := env.visualErr.isNone
      let errsVis : List String :=
        errsHum ++ (match env.visualErr with
          | some e => ["Visual generation failed: " ++ e]
          | none => [])
      let intOk : Bool := env.interactiveErr.isNone
      let errsInt : List String :=
        errsVis ++ (match env.interactiveErr with
          | some e => ["Interactive component failed: " ++ e]
          | none => [])
      let finOk : Bool := env.finalReviewErr.isNone
      let errsFin : List String :=
        errsInt ++ (match env.finalReviewErr with
          | some e => ["Final review failed: " ++ e]
          | none => [])
      let flags : StageFlags := ⟨seoOk, true, humOk, visOk, intOk, finOk⟩
      match env.reviewUpdateErr with
      | none =>
        (⟨true, some ArticleStatus.review⟩, Except.ok ⟨true, flags, errsFin, false⟩)
      | some e =>
        match env.revertUpdateErr with
        | some re => (⟨true, some ArticleStatus.processing⟩, Except.error re)
        | none =>
          (⟨true, some ArticleStatus.draft⟩,
            Except.ok ⟨true, flags, errsFin ++ ["Pipeline failed: " ++ e], true⟩)

/-- Character-list prefix test (helper for substring search). -/
def isPrefixChars : List Char → List Char → Bool
  | [], _ => true
  | _ :: _, [] => false
  | p :: ps, c :: cs => p == c && isPrefixChars ps cs

/-- Substring containment on character lists. -/
def containsChars (pat : List Char) : List Char → Bool
  | [] => pat.isEmpty
  | c :: rest => isPrefixChars pat (c :: rest) || containsChars pat rest

/-- An error entry is writing-related if it mentions the writing stage
(contains the substring "Writing"). -/
def mentionsWriting (s : String) : Bool := containsChars "Writing".data s.data

/-- The pipeline environment in which every call succeeds. -/
def envAllOk : PipelineEnv :=
  ⟨none, none, none, none, none, none, none, none, none, none, none⟩

/-- The result of a fully successful pipeline run. -/
def resAllOk : PipelineResult :=
  ⟨true, ⟨true, true, true, true, true, true⟩, [], false⟩

/-- Environment of a run where only the writing stage fails. -/
def envWritingFail : PipelineEnv :=
  ⟨none, none, none, none, some "Error: quota exceeded", none, none, none, none, none, none⟩

/-- Result of the run `envWritingFail` describes. -/
def resWritingFail : PipelineResult :=
  ⟨true, ⟨true, false, false, false, false, false⟩,
    ["Writing failed: Error: quota exceeded",
     "Pipeline failed: Error: Critical: Writing stage failed"], true⟩

/-- Environment where the writing stage fails and the draft-revert write in
the top-level catch also throws, so the returned promise rejects. -/
def envWritingRevertFail : PipelineEnv :=
  ⟨none, none, none, none, some "Error: quota exceeded", none, none, none, none, none,
    some "Error: store down"⟩

/-! ## Dynamic scheduler (src/src/agent/agent.module.ts, `AgentService`) -/

/-- The fixed cron job name `AgentService.JOB_NAME`. -/
def JOB_NAME : String := "auto_article_generation"

/-- The `agent_config` singleton row as the scheduler reads it:
`is_active` and `interval_minutes` (a nullable database integer — the
config update endpoint types its body inline, so the global
`ValidationPipe` does not constrain it and a negative value can reach the
scheduler). -/
structure AgentConfig where
  isActive : Bool
  intervalMinutes : Option Int
  deriving DecidableEq

/-- The `SchedulerRegistry` state: the named cron jobs, each paired with its
cron expression.  (The registry is a map keyed by name; we model it as an
association list so that the single-timer invariant is provable rather
than baked into the type.) -/
structure SchedState where
  cronJobs : List (String × String)
  deriving DecidableEq

/-- `AgentService.stopCron`: if a job named `JOB_NAME` exists, delete it
(`deleteCronJob` removes the entry for that key). -/
def stopCron (s : SchedState) : SchedState :=
  ⟨s.cronJobs.filter (fun j => !(j.1 == JOB_NAME))⟩

/-- The cron expression computed by `setupScheduler` from
`config.interval_minutes`: `const intervalMins = config.interval_minutes || 120`
(so a null or 0 value falls back to 120), then an every-N-minutes
expression when under 60 and an every-`Math.floor(N/60)`-hours expression
otherwise (only reached for N ≥ 60, where `Math.floor` agrees with
integer division). -/
def cronExpFor (intervalMinutes : Option Int) : String :=
  let m : Int :=
    match intervalMinutes with
    | none => 120
    | some 0 => 120
    | some n => n
  if m < 60 then "0 */" ++ toString m ++ " * * * *"
  else "0 0 */" ++ toString (m / 60) ++ " * * *"

/-- Whether `new CronJob(cronExp, …)` succeeds, modelled for the two
expression shapes this service generates (`0 */k * * * *` and
`0 0 */k * * *`): the only malformed ingredient these shapes can contain
is a negative step, i.e. a step rendered with a minus sign (from a
negative `interval_minutes`, which no validation stops), which the cron
parser rejects, so the constructor throws exactly when a `-` character
appears in the expression. -/
def cronCtorOk (cronExp : String) : Bool :=
  cronExp.data.all (fun c => !(c == '-'))

/-- `AgentService.updateCron`: first `stopCron` (which disarms any
existing `JOB_NAME` timer), then `new CronJob(cronExp, …)` — which can
throw AFTER the disarm — then register and start the job.  The result is
the registry state reached together with the thrown error, if any; on a
constructor throw the state keeps the already-executed disarm. -/
def updateCron (cronExp : String) (s : SchedState) : SchedState × Option String :=
  if cronCtorOk cronExp then
    (⟨(stopCron s).cronJobs ++ [(JOB_NAME, cronExp)]⟩, none)
  else (stopCron s, some ("Error: invalid cron expression: " ++ cronExp))

/-- Outcome of the `agent_config` read at the top of `setupScheduler`:
the row, a data-level error (`error || !config`), or a thrown exception. -/
inductive ConfigFetch
  | ok (c : AgentConfig)
  | dataErr
  | thrown (e : String)
  deriving DecidableEq

/-- The body of `AgentService.setupScheduler`, i.e. its `try` block: load
config (returning early on a data error), stop the cron when inactive,
otherwise compute the cron expression and re-register via `updateCron`.
The result pairs the registry state reached — which persists even when an
exception is thrown, since the registry is mutated in place — with the
thrown error, if any. -/
def setupSchedulerBody (f : ConfigFetch) (s : SchedState) : SchedState × Option String :=
  match f with
  | .thrown e => (s, some e)
  | .dataErr => (s, none)
  | .ok c =>
    if !c.isActive then (stopCron s, none)
    else updateCron (cronExpFor c.intervalMinutes) s

/-- `AgentService.setupScheduler`: the body wrapped in the surrounding
`try`/`catch` — an exception is logged and swallowed, and the registry
keeps whatever state the body reached before throwing. -/
def setupScheduler (f : ConfigFetch) (s : SchedState) : SchedState :=
  (setupSchedulerBody f s).1

/-- The cron expression of the armed job under `JOB_NAME`, if any. -/
def armedExp (s : SchedState) : Option String :=
  (s.cronJobs.find? (fun j => j.1 == JOB_NAME)).map Prod.snd

/-- The number of registry entries under the fixed job name. -/
def jobCount (s : SchedState) : Nat :=
  s.cronJobs.countP (fun j => j.1 == JOB_NAME)

/-- A reconciliation run that failed: the config read returned a data
error, or some call of the body threw (the config fetch or the `CronJob`
constructor), reaching the `catch`. -/
def reconcileFailed (f : ConfigFetch) (s : SchedState) : Prop :=
  f = ConfigFetch.dataErr ∨ (setupSchedulerBody f s).2 ≠ none

/-! ## Agent run and manual trigger (agent.module.ts `executeAgentRun`,
AgentController `triggerAgent` in src/api/index.ts part) -/

/-- `agent_runs.status` values used by the service. -/
inductive RunStatus
  | searching
  | generating
  | completed
  | failed
  deriving DecidableEq

/-- Outcomes of the fallible steps of `executeAgentRun`: whether the run
record insert returned an error, whether `brainstormTopic` threw, and the
pipeline environment for the `generateArticle` call.  (`updateRunStatus`
and the `last_run_at` update never throw: their supabase results are not
checked.) -/
structure AgentRunEnv where
  createRunErr : Bool
  brainstormErr : Option String
  pipelineEnv : PipelineEnv
  deriving DecidableEq

/-- Observable outcome of `executeAgentRun`: whether the run record exists,
its final status, whether `agent_config.last_run_at` was updated, and
whether an article record exists in the store after the run. -/
structure AgentRunOutcome where
  runCreated : Bool
  runStatus : Option RunStatus
  lastRunUpdated : Bool
  articleRecordCreated : Bool
  deriving DecidableEq

/-- Shallow embedding of `AgentService.executeAgentRun`: create the run
record (returning if that fails), brainstorm a topic (a throw is caught and
marks the run `failed`), run the pipeline, and mark the run `completed`
and update `last_run_at` iff the resolved result carries an article with an
id; a pipeline rejection is caught and marks the run `failed`. -/
def executeAgentRun (env : AgentRunEnv) : AgentRunOutcome :=
  if env.createRunErr then ⟨false, none, false, false⟩
  else
    match env.brainstormErr with
    | some _ => ⟨true, some RunStatus.failed, false, false⟩
    | none =>
      match executePipeline env.pipelineEnv with
      | (store, Except.error _) => ⟨true, some RunStatus.failed, false, store.articleCreated⟩
      | (store, Except.ok r) =>
        if r.articleCreated then ⟨true, some RunStatus.completed, true, store.articleCreated⟩
        else ⟨true, some RunStatus.failed, false, store.articleCreated⟩

/-- Response body of `AgentController.triggerAgent`. -/
structure TriggerResponse where
  success : Bool
  message : String
  deriving DecidableEq

/-- Observable outcome of the manual trigger endpoint. -/
structure TriggerOutcome where
  loggedMismatch : Bool
  runOutcome : AgentRunOutcome
  response : TriggerResponse
  deriving DecidableEq

/-- Shallow embedding of `AgentController.triggerAgent`: when `CRON_SECRET`
is configured and the authorization header differs from
`Bearer <secret>`, the mismatch is only logged; in every case the agent
run executes and the same success response is returned. -/
def triggerAgent (cronSecret : Option String) (authHeader : Option String)
    (runEnv : AgentRunEnv) : TriggerOutcome :=
  let mism : Bool :=
    match cronSecret with
    | none => false
    | some sec => !(authHeader == some ("Bearer " ++ sec))
  { loggedMismatch := mism,
    runOutcome := executeAgentRun runEnv,
    response := ⟨true, "Agent run triggered manually"⟩ }

/-- Agent-run environment where everything succeeds. -/
def agentEnvAllOk : AgentRunEnv := ⟨false, none, envAllOk⟩

/-- Agent-run environment where the pipeline's writing stage fails and the
draft-revert write rejects, so `generateArticle`'s promise rejects even
though the article record was created. -/
def agentEnvPipelineReject : AgentRunEnv := ⟨false, none, envWritingRevertFail⟩

/-! ## Text transforms (gemini.service.ts `extractImagePrompts`; the
stage-4 placeholder substitution and final cleanup in `executePipeline`).

The JS regexes are embedded as deterministic matchers.  For the patterns
involved, greedy/lazy backtracking resolves uniquely, because the
characters that delimit each piece (`:`, `<`, `-`, uppercase letters)
are never whitespace; the only residual backtracking — a greedy `\s*`
giving characters back to a following one-or-more character class — is
implemented explicitly (`btSkip`). -/

/-- JS `\s` for the character set these documents contain (space, tab,
newline, carriage return). -/
def isJsSpace (c : Char) : Bool :=
  c == ' ' || c == '\t' || c == '\n' || c == '\r'

/-- JS `String.prototype.trim` on a character list. -/
def trimJsList (l : List Char) : List Char :=
  ((l.dropWhile isJsSpace).reverse.dropWhile isJsSpace).reverse

/-- Match a literal character sequence, returning the remainder. -/
def matchLit : List Char → List Char → Option (List Char)
  | [], l => some l
  | _ :: _, [] => none
  | p :: ps, c :: cs => if p == c then matchLit ps cs else none

/-- Backtracking step for `\s*` followed by `[^B]+` when the class finds
nothing after the maximal whitespace run: walking the whitespace block from
its right end, skip the characters the class bans until one it accepts
(the 1-character capture); the skipped characters stay in the input.
First argument: the reversed whitespace block; second: accumulator of
skipped characters in original order. -/
def btSkip (B : Char → Bool) : List Char → List Char → Option (Char × List Char)
  | [], _ => none
  | c :: w, acc => if B c then btSkip B w (c :: acc) else some (c, acc)

/-- The alternative `\s*:\s*([^B]+)` (with `B` the banned-character class):
returns the capture after `.trim()` and the remaining input.  When the
class matches nothing after the colon's trailing whitespace, the greedy
`\s*` backtracks minimally and the capture is a single whitespace
character, which trims to the empty string. -/
def matchColonAlt (B : Char → Bool) (l : List Char) : Option (List Char × List Char) :=
  match l.dropWhile isJsSpace with
  | ':' :: t1 =>
    let w2 := t1.takeWhile isJsSpace
    let t2 := t1.dropWhile isJsSpace
    let cap := t2.takeWhile (fun c => !(B c))
    if cap.isEmpty then
      match btSkip B w2.reverse [] with
      | some (_, acc) => some ([], acc ++ t2)
      | none => none
    else some (trimJsList cap, t2.drop cap.length)
  | _ => none

/-- Find the earliest comment terminator (lazy `[\s\S]*?-->`), returning
the remainder after it. -/
def findCommentClose : List Char → Option (List Char)
  | [] => none
  | '-' :: '-' :: '>' :: rest => some rest
  | _ :: rest => findCommentClose rest

/-- The alternative `\s*<!--[\s\S]*?-->` of the substitution/cleanup
regexes. -/
def matchCommentTailPlain (l : List Char) : Option (List Char) :=
  match matchLit "<!--".data (l.dropWhile isJsSpace) with
  | some l2 => findCommentClose l2
  | none => none

/-- The alternative `\s*<!--\s*Image:\s*([^-]+?)\s*-->` of the extraction
regex: the lazy capture cannot cross a `-`, so the first `-` after
`Image:` must begin the literal `-->`, with at least one character before
it; the capture is that zone after `.trim()` (empty when the zone is all
whitespace, in which case the real capture is a lone whitespace
character). -/
def matchCommentAltExtract (l : List Char) : Option (List Char × List Char) :=
  match matchLit "<!--".data (l.dropWhile isJsSpace) with
  | none => none
  | some l2 =>
    match matchLit "Image:".data (l2.dropWhile isJsSpace) with
    | none => none
    | some l3 =>
      let zone := l3.takeWhile (fun c => !(c == '-'))
      match matchLit "-->".data (l3.drop zone.length) with
      | none => none
      | some rest =>
        if zone.isEmpty then none
        else some (trimJsList zone, rest)

/-- Match `\[IMAGE_PROMPT_(\d+)\]` at the head of the input, returning the
captured digit characters and the remainder. -/
def matchTokenAt (l : List Char) : Option (List Char × List Char) :=
  match matchLit "[IMAGE_PROMPT_".data l with
  | none => none
  | some l1 =>
    let ds := l1.takeWhile Char.isDigit
    if ds.isEmpty then none
    else
      match l1.drop ds.length with
      | ']' :: l3 => some (ds, l3)
      | _ => none

/-- The banned class `[^\n\!]` of the per-placeholder substitution regex
(`fullPlaceholderRegex`, pipeline stage 4). -/
def substBanned (c : Char) : Bool := c == '\n' || c == '!'

/-- The banned class `[^n\!]` of the final cleanup regex — note it excludes
the LETTER `n`, not a newline (the backslash is missing in the source). -/
def cleanupBanned (c : Char) : Bool := c == 'n' || c == '!'

/-- The optional tail
`(?:\s*:\s*[^B]+|\s*<!--[\s\S]*?-->|\s*(?=[A-Z]))?` shared by the
substitution and cleanup regexes (they differ only in the banned class
`B`): alternatives tried left to right, the lookahead consuming only the
whitespace, and an empty match when all three fail. -/
def placeholderTail (B : Char → Bool) (l : List Char) : List Char :=
  match matchColonAlt B l with
  | some (_, rest) => rest
  | none =>
    match matchCommentTailPlain l with
    | some rest => rest
    | none =>
      match l.dropWhile isJsSpace with
      | c :: rest2 => if 'A' ≤ c && c ≤ 'Z' then c :: rest2 else l
      | [] => l

/-- Global `String.replace` of one escaped placeholder token (with its
optional tail) by the image markdown, scanning left to right and resuming
after each replacement (the replacement text is not rescanned). -/
def replacePlaceholder : Nat → List Char → List Char → List Char → List Char
  | 0, _, _, l => l
  | _ + 1, _, _, [] => []
  | fuel + 1, ph, repl, c :: rest =>
    match matchLit ph (c :: rest) with
    | some afterTok => repl ++ replacePlaceholder fuel ph repl (placeholderTail substBanned afterTok)
    | none => c :: replacePlaceholder fuel ph repl rest

/-- The final cleanup pass
`content.replace(/\[IMAGE_PROMPT_\d+\](?:\s*:\s*[^n\!]+|\s*<!--[\s\S]*?-->|\s*(?=[A-Z]))?/g, '')`. -/
def cleanupScan : Nat → List Char → List Char
  | 0, l => l
  | _ + 1, [] => []
  | fuel + 1, c :: rest =>
    match matchTokenAt (c :: rest) with
    | some (_, afterTok) => cleanupScan fuel (placeholderTail cleanupBanned afterTok)
    | none => c :: cleanupScan fuel rest

/-- One entry of `extractImagePrompts`: the derived prompt and the bare
placeholder token. -/
structure ImagePromptRef where
  prompt : String
  placeholder : String
  deriving DecidableEq

/-- Match `##\s+([^\n]+)` at the head of the input, returning the full
matched characters and the remainder.  When the line after the heading
marker is exhausted, the greedy `\s+` backtracks so the class can take a
final whitespace character, keeping at least one whitespace for `\s+`. -/
def h2MatchAt (l : List Char) : Option (List Char × List Char) :=
  match l with
  | '#' :: '#' :: t =>
    let w := t.takeWhile isJsSpace
    let t2 := t.dropWhile isJsSpace
    if w.isEmpty then none
    else
      let cap := t2.takeWhile (fun c => !(c == '\n'))
      if cap.isEmpty then
        match btSkip (fun c => c == '\n') w.reverse [] with
        | none => none
        | some (_, acc) =>
          if w.length < acc.length + 2 then none
          else some ('#' :: '#' :: w.take (w.length - acc.length), acc ++ t2)
      else some ('#' :: '#' :: (w ++ cap), t2.drop cap.length)
  | _ => none

/-- `contentBefore.match(/##\s+([^\n]+)/g)`: scan left to right without
overlap and keep the last full match. -/
def h2Scan : Nat → List Char → Option (List Char) → Option (List Char)
  | 0, _, last => last
  | fuel + 1, l, last =>
    match h2MatchAt l with
    | some (full, rest) => h2Scan fuel rest (some full)
    | none =>
      match l with
      | [] => last
      | _ :: t => h2Scan fuel t last

/-- The fallback prompt when a placeholder has no usable annotation: the
nearest preceding H2 heading (the last `##\s+...` match of the content
before the token, with the `^##\s+` prefix stripped), or the generic
blog-section text with the token's digits. -/
def fallbackPrompt (revPre : List Char) (ds : List Char) : String :=
  let content := revPre.reverse
  match h2Scan content.length content none with
  | some full =>
    "Illustration for: " ++ String.mk ((full.drop 2).dropWhile isJsSpace)
  | none => "Blog section illustration " ++ String.mk ds

/-- The optional annotation group of the extraction regex
`(?:\s*:\s*([^\n<]+)|(?:\s*<!--\s*Image:\s*([^-]+?)\s*-->))?`: colon
alternative first, then the comment alternative; returns the trimmed
capture and the remainder. -/
def extractAnnot (l : List Char) : Option (List Char × List Char) :=
  match matchColonAlt (fun c => c == '\n' || c == '<') l with
  | some r => some r
  | none => matchCommentAltExtract l

/-- The `exec` loop of `extractImagePrompts`: scan for tokens left to
right; for each, prefer the annotation capture (falling back when it trims
to the empty string, which is falsy in JS), else derive the prompt from
the content before the token; resume after the full match. -/
def extractScan : Nat → List Char → List Char → List ImagePromptRef
  | 0, _, _ => []
  | _ + 1, _, [] => []
  | fuel + 1, revPre, c :: rest =>
    match matchTokenAt (c :: rest) with
    | none => extractScan fuel (c :: revPre) rest
    | some (ds, afterTok) =>
      let annot := extractAnnot afterTok
      let afterAll :=
        match annot with
        | some (_, r2) => r2
        | none => afterTok
      let prompt : String :=
        match annot with
        | some (cap, _) =>
          if cap.isEmpty then fallbackPrompt revPre ds else String.mk cap
        | none => fallbackPrompt revPre ds
      let consumed := (c :: rest).take ((c :: rest).length - afterAll.length)
      ⟨prompt, "[IMAGE_PROMPT_" ++ String.mk ds ++ "]"⟩
        :: extractScan fuel (consumed.reverse ++ revPre) afterAll

/-- `GeminiService.extractImagePrompts`. -/
def extractImagePrompts (s : String) : List ImagePromptRef :=
  extractScan s.data.length [] s.data

/-- The markdown image embed `\n\n![altTag](imageUrl)\n\n` substituted for
a processed placeholder. -/
def imageMarkdown (alt url : String) : String :=
  "\n\n![" ++ alt ++ "](" ++ url ++ ")\n\n"

/-- The stage-4 loop over the first `min(3, n)` extracted placeholders:
each placeholder whose image generation/upload/alt-tagging succeeded
(outcome `some (url, alt)`) is globally substituted in the current
content; failed ones (outcome `none`, e.g. `generateImage` returned null)
leave the content unchanged. -/
def visualSubstitute : List (ImagePromptRef × Option (String × String)) → List Char → List Char
  | [], content => content
  | (_, none) :: rest, content => visualSubstitute rest content
  | (ref, some (url, alt)) :: rest, content =>
    visualSubstitute rest
      (replacePlaceholder content.length ref.placeholder.data (imageMarkdown alt url).data content)

/-- The full stage-4 text transform: extract the placeholders, substitute
the processed ones among the first 3 (`outcomes` pairs with them in
order), then run the final cleanup pass and `.trim()`. -/
def visualGenerationText (body : String) (outcomes : List (Option (String × String))) : String :=
  let prompts := extractImagePrompts body
  let substituted := visualSubstitute ((prompts.take 3).zip outcomes) body.data
  String.mk (trimJsList (cleanupScan substituted.length substituted))

/-! ## Stream multiplexer (app.module.ts part, `PipelineController.streamProgress`) -/

/-- The JS normalization `s.toLowerCase().trim()` used on both topics. -/
def jsLowerTrim (s : String) : String :=
  String.mk (trimJsList (s.data.map Char.toLower))

/-- A `pipeline.log` bus event. -/
structure BusEvent where
  topic : String
  stage : String
  message : String
  deriving DecidableEq

/-- The data of one delivered SSE message (the timestamp, real wall-clock
time, is outside the model). -/
structure SseData where
  message : String
  stage : String
  deriving DecidableEq

/-- The synthetic connect acknowledgement emitted first on subscription. -/
def connectedAck : SseData :=
  ⟨"Successfully connected to pipeline stream.", "System"⟩

/-- The subscription filter:
`event.topic?.toLowerCase().trim() === topic?.toLowerCase().trim()`. -/
def topicMatches (sub : String) (e : BusEvent) : Bool :=
  jsLowerTrim e.topic == jsLowerTrim sub

/-- `streamProgress` observed as the sequence of messages a subscriber to
`sub` receives, given the bus events published during its subscription:
the acknowledgement first, then each matching bus event mapped to its SSE
data, in publication order. -/
def streamDelivered (sub : String) (pub : List BusEvent) : List SseData :=
  connectedAck :: (pub.filter (topicMatches sub)).map (fun e => ⟨e.message, e.stage⟩)

/-! ## Theorems for claims C1 and C2 -/

/-- C1: for every topic (i.e. every environment of call outcomes), when
`executePipeline` resolves normally and the article record was created, the
record's status is exactly one of {review, draft}, and it is `review` iff no
caught top-level exception (fatal failure) occurred during the run. -/
theorem c1_terminal_status (env : PipelineEnv) (st : PipelineStore) (r : PipelineResult)
    (hret : executePipeline env = (st, Except.ok r))
    (hcre : r.articleCreated = true) :
    (st.articleStatus = some ArticleStatus.review ∨
      st.articleStatus = some ArticleStatus.draft)
    ∧ (st.articleStatus = some ArticleStatus.review ↔ r.caughtTop = false) := by
  rcases env with ⟨slug, cre, cat, seo, w, hum, vis, intr, fin, rvw, rvt⟩
  cases cre <;> cases w <;> cases rvw <;> cases rvt <;>
    simp [executePipeline, Prod.mk.injEq] at hret <;>
    obtain ⟨hst, hr⟩ := hret <;> subst hst <;> subst hr <;> simp_all

/-- C1 witness: the all-success run resolves with the record created and in
status `review`, with no top-level exception. -/
theorem c1_terminal_status_witness :
    ((⟨true, some ArticleStatus.review⟩ : PipelineStore).articleStatus
        = some ArticleStatus.review ∨
      (⟨true, some ArticleStatus.review⟩ : PipelineStore).articleStatus
        = some ArticleStatus.draft)
    ∧ ((⟨true, some ArticleStatus.review⟩ : PipelineStore).articleStatus
        = some ArticleStatus.review ↔ resAllOk.caughtTop = false) :=
  c1_terminal_status envAllOk ⟨true, some ArticleStatus.review⟩ resAllOk rfl rfl

/-- C2 counterexample: in a run where only the writing stage fails (and the
draft revert succeeds), the returned `errors` list contains TWO
writing-related entries — the stage entry and the top-level
`Pipeline failed` entry triggered by the rethrow — not exactly one as the
claim states. -/
theorem c2_counterexample :
    executePipeline envWritingFail
      = (⟨true, some ArticleStatus.draft⟩, Except.ok resWritingFail)
    ∧ resWritingFail.errors.countP mentionsWriting = 2
    ∧ ¬ resWritingFail.errors.countP mentionsWriting = 1 := by
  refine ⟨rfl, by decide, by decide⟩

/-- C2 (amended): a writing-stage failure aborts all remaining stages
(humanizing, visual generation, interactive, final review never run,
their flags stay false), leaves the Content Record with status `draft`,
and the returned errors list contains exactly two entries — the
writing-stage entry and the top-level pipeline-failure entry recording the
abort — with zero entries for stages never reached. -/
theorem c2_writing_abort (env : PipelineEnv) (e : String)
    (hc : env.createErr = none) (hcat : env.categoryErr = none)
    (hseo : env.seoErr = none) (hw : env.writingErr = some e)
    (hrv : env.revertUpdateErr = none) :
    executePipeline env
      = (⟨true, some ArticleStatus.draft⟩,
          Except.ok ⟨true, ⟨true, false, false, false, false, false⟩,
            ["Writing failed: " ++ e,
             "Pipeline failed: Error: Critical: Writing stage failed"], true⟩) := by
  rcases env with ⟨slug, cre, cat, seo, w, hum, vis, intr, fin, rvw, rvt⟩
  simp only at hc hcat hseo hw hrv
  subst hc; subst hcat; subst hseo; subst hw; subst hrv
  rfl

/-- C2 witness: the amended behaviour at the concrete failing run. -/
theorem c2_writing_abort_witness :
    executePipeline envWritingFail
      = (⟨true, some ArticleStatus.draft⟩,
          Except.ok ⟨true, ⟨true, false, false, false, false, false⟩,
            ["Writing failed: " ++ "Error: quota exceeded",
             "Pipeline failed: Error: Critical: Writing stage failed"], true⟩) :=
  c2_writing_abort envWritingFail "Error: quota exceeded" rfl rfl rfl rfl rfl

/-! ## Helper lemmas for the scheduler registry -/

/-- `find?` skips a prefix in which nothing satisfies the predicate. -/
theorem find?_append_of_none {α : Type} (p : α → Bool) (l1 l2 : List α)
    (h : l1.find? p = none) : (l1 ++ l2).find? p = l2.find? p := by
  induction l1 with
  | nil => simp
  | cons a t ih =>
    rw [List.cons_append]
    cases hpa : p a with
    | true => rw [List.find?_cons_of_pos _ hpa] at h; exact absurd h (by simp)
    | false =>
      rw [List.find?_cons_of_neg _ (by simp [hpa])] at h
      rw [List.find?_cons_of_neg _ (by simp [hpa])]
      exact ih h

/-- Filtering out every element satisfying `p` leaves nothing for `find? p`. -/
theorem find?_filter_not_none {α : Type} (p : α → Bool) (l : List α) :
    (l.filter (fun a => !(p a))).find? p = none := by
  induction l with
  | nil => rfl
  | cons a t ih =>
    cases hpa : p a with
    | true => simp [List.filter_cons, hpa, ih]
    | false => simp [List.filter_cons, hpa, List.find?_cons_of_neg, ih]

/-- Filtering out every element satisfying `p` leaves a `countP p` of zero. -/
theorem countP_filter_not_zero {α : Type} (p : α → Bool) (l : List α) :
    (l.filter (fun a => !(p a))).countP p = 0 := by
  induction l with
  | nil => rfl
  | cons a t ih =>
    cases hpa : p a with
    | true => simp [List.filter_cons, hpa, ih]
    | false => simp [List.filter_cons, List.countP_cons, hpa, ih]

/-- After a disarm-then-arm of the fixed name, the armed job carries
exactly the new cron expression. -/
theorem armedExp_arm (e : String) (l : List (String × String)) :
    armedExp ⟨(l.filter (fun j => !(j.1 == JOB_NAME))) ++ [(JOB_NAME, e)]⟩ = some e := by
  unfold armedExp
  rw [find?_append_of_none _ _ _ (find?_filter_not_none _ _)]
  simp [List.find?]

/-- After a successful `updateCron` (valid cron expression), the armed job
under the fixed name carries exactly the new expression. -/
theorem armedExp_updateCron (e : String) (s : SchedState) (h : cronCtorOk e = true) :
    armedExp (updateCron e s).1 = some e := by
  unfold updateCron
  rw [if_pos h]
  exact armedExp_arm e s.cronJobs

/-- After a disarm-then-arm of the fixed name, exactly one registry entry
carries it. -/
theorem jobCount_arm (e : String) (l : List (String × String)) :
    jobCount ⟨(l.filter (fun j => !(j.1 == JOB_NAME))) ++ [(JOB_NAME, e)]⟩ = 1 := by
  unfold jobCount
  rw [List.countP_append]
  simp [countP_filter_not_zero, List.countP_cons]

/-- After a successful `updateCron`, exactly one registry entry carries
the fixed name. -/
theorem jobCount_updateCron (e : String) (s : SchedState) (h : cronCtorOk e = true) :
    jobCount (updateCron e s).1 = 1 := by
  unfold updateCron
  rw [if_pos h]
  exact jobCount_arm e s.cronJobs

/-- `Nat.digitChar` never yields a minus sign on an actual digit. -/
theorem no_minus_digitChar_lt (k : Nat) (hk : k < 16) : ¬ Nat.digitChar k = '-' := by
  interval_cases k <;> decide

/-- Base-10 `Nat.toDigitsCore` never introduces a minus sign. -/
theorem no_minus_toDigitsCore (fuel n : Nat) (ds : List Char)
    (h : ds.all (fun c => !(c == '-')) = true) :
    (Nat.toDigitsCore 10 fuel n ds).all (fun c => !(c == '-')) = true := by
  induction fuel generalizing n ds with
  | zero => simpa [Nat.toDigitsCore] using h
  | succ fuel ih =>
    have hd : ¬ Nat.digitChar (n % 10) = '-' :=
      no_minus_digitChar_lt (n % 10) (by omega)
    simp only [Nat.toDigitsCore]
    split
    · simp [List.all_cons, h, hd]
    · exact ih _ _ (by simp [List.all_cons, h, hd])

/-- The decimal rendering of a natural number contains no minus sign. -/
theorem no_minus_natRepr (n : Nat) :
    (Nat.repr n).data.all (fun c => !(c == '-')) = true :=
  no_minus_toDigitsCore (n + 1) n [] rfl

/-- A minutes-granularity expression with a natural step is a valid cron
expression. -/
theorem cronCtorOk_minutes (k : Nat) :
    cronCtorOk ("0 */" ++ Nat.repr k ++ " * * * *") = true := by
  unfold cronCtorOk
  simp only [String.data_append, List.all_append]
  rw [no_minus_natRepr]
  decide

/-- An hours-granularity expression with a natural step is a valid cron
expression. -/
theorem cronCtorOk_hours (k : Nat) :
    cronCtorOk ("0 0 */" ++ Nat.repr k ++ " * * *") = true := by
  unfold cronCtorOk
  simp only [String.data_append, List.all_append]
  rw [no_minus_natRepr]
  decide

/-! ## Theorems for claims C6, C7, C8 -/

/-- C6: reconciling an active configuration arms the timer with the period
derived from `intervalMinutes` — an every-N-minutes cron expression for
N < 60 and an every-`floor(N/60)`-hours expression for N ≥ 60; in
particular 30 arms an every-30-minutes timer and 150 an every-2-hours
timer. -/
theorem c6_interval_schedule (s : SchedState) (n : Nat) (hn : n ≠ 0) :
    armedExp (setupScheduler (ConfigFetch.ok ⟨true, some (n : Int)⟩) s)
        = some (if (n : Int) < 60 then "0 */" ++ toString (n : Int) ++ " * * * *"
            else "0 0 */" ++ toString ((n : Int) / 60) ++ " * * *")
    ∧ armedExp (setupScheduler (ConfigFetch.ok ⟨true, some 30⟩) s)
        = some "0 */30 * * * *"
    ∧ armedExp (setupScheduler (ConfigFetch.ok ⟨true, some 150⟩) s)
        = some "0 0 */2 * * *" := by
  refine ⟨?_, ?_, ?_⟩
  · cases n with
    | zero => exact absurd rfl hn
    | succ m =>
      have hExp : cronExpFor (some ((m + 1 : Nat) : Int))
          = if ((m + 1 : Nat) : Int) < 60
            then "0 */" ++ toString ((m + 1 : Nat) : Int) ++ " * * * *"
            else "0 0 */" ++ toString (((m + 1 : Nat) : Int) / 60) ++ " * * *" := rfl
      have hOk : cronCtorOk (cronExpFor (some ((m + 1 : Nat) : Int))) = true := by
        rw [hExp]
        split
        · exact cronCtorOk_minutes (m + 1)
        · exact cronCtorOk_hours ((m + 1) / 60)
      calc armedExp (setupScheduler (ConfigFetch.ok ⟨true, some ((m + 1 : Nat) : Int)⟩) s)
          = armedExp (updateCron (cronExpFor (some ((m + 1 : Nat) : Int))) s).1 := rfl
        _ = some (cronExpFor (some ((m + 1 : Nat) : Int))) :=
            armedExp_updateCron (cronExpFor (some ((m + 1 : Nat) : Int))) s hOk
        _ = _ := by rw [hExp]
  · calc armedExp (setupScheduler (ConfigFetch.ok ⟨true, some 30⟩) s)
        = armedExp (updateCron (cronExpFor (some 30)) s).1 := rfl
      _ = some (cronExpFor (some 30)) :=
          armedExp_updateCron (cronExpFor (some 30)) s (by decide)
      _ = some "0 */30 * * * *" := by decide
  · calc armedExp (setupScheduler (ConfigFetch.ok ⟨true, some 150⟩) s)
        = armedExp (updateCron (cronExpFor (some 150)) s).1 := rfl
      _ = some (cronExpFor (some 150)) :=
          armedExp_updateCron (cronExpFor (some 150)) s (by decide)
      _ = some "0 0 */2 * * *" := by decide

/-- C6 witness: the schedule shapes at the concrete intervals 30 and 150,
starting from an empty registry. -/
theorem c6_interval_schedule_witness :
    armedExp (setupScheduler (ConfigFetch.ok ⟨true, some ((30 : Nat) : Int)⟩) ⟨[]⟩)
        = some (if ((30 : Nat) : Int) < 60
            then "0 */" ++ toString ((30 : Nat) : Int) ++ " * * * *"
            else "0 0 */" ++ toString (((30 : Nat) : Int) / 60) ++ " * * *")
    ∧ armedExp (setupScheduler (ConfigFetch.ok ⟨true, some 30⟩) ⟨[]⟩)
        = some "0 */30 * * * *"
    ∧ armedExp (setupScheduler (ConfigFetch.ok ⟨true, some 150⟩) ⟨[]⟩)
        = some "0 0 */2 * * *" :=
  ⟨(c6_interval_schedule ⟨[]⟩ 30 (by decide)).1,
   (c6_interval_schedule ⟨[]⟩ 30 (by decide)).2.1,
   (c6_interval_schedule ⟨[]⟩ 30 (by decide)).2.2⟩

/-- C7: at most one scheduler timer is armed under the fixed job name:
every re-arm first disarms (so after `updateCron` at most one entry
carries the name — exactly one when arming succeeded, none when the
constructor threw after the disarm), reconciling an inactive configuration
leaves no armed timer, and any reconciliation preserves the at-most-one
invariant. -/
theorem c7_single_timer (f : ConfigFetch) (s : SchedState) (e : String) (i : Option Int)
    (h : jobCount s ≤ 1) :
    jobCount (updateCron e s).1 ≤ 1
    ∧ (∀ s2, updateCron e s = (s2, none) → jobCount s2 = 1)
    ∧ jobCount (setupScheduler (ConfigFetch.ok ⟨false, i⟩) s) = 0
    ∧ jobCount (setupScheduler f s) ≤ 1 := by
  have hstop : jobCount (stopCron s) = 0 := countP_filter_not_zero _ _
  have hup : ∀ e2, jobCount (updateCron e2 s).1 ≤ 1 := by
    intro e2
    unfold updateCron
    split
    · exact le_of_eq (jobCount_arm e2 s.cronJobs)
    · show jobCount (stopCron s) ≤ 1
      rw [hstop]
      exact Nat.zero_le 1
  refine ⟨hup e, ?_, hstop, ?_⟩
  · intro s2 heq
    unfold updateCron at heq
    split at heq
    · injection heq with h1 h2
      subst h1
      exact jobCount_arm e s.cronJobs
    · injection heq with h1 h2
      exact Option.noConfusion h2
  · cases f with
    | thrown e2 => exact h
    | dataErr => exact h
    | ok c =>
      rcases c with ⟨act, iv⟩
      cases act with
      | false =>
        show jobCount (stopCron s) ≤ 1
        rw [hstop]
        exact Nat.zero_le 1
      | true =>
        exact hup (cronExpFor iv)

/-- C7 witness: the single-timer properties at a concrete registry state. -/
theorem c7_single_timer_witness :
    jobCount (updateCron "0 */30 * * * *" ⟨[(JOB_NAME, "0 0 */2 * * *")]⟩).1 ≤ 1
    ∧ jobCount (setupScheduler (ConfigFetch.ok ⟨false, some 30⟩)
        ⟨[(JOB_NAME, "0 0 */2 * * *")]⟩) = 0
    ∧ jobCount (setupScheduler ConfigFetch.dataErr ⟨[(JOB_NAME, "0 0 */2 * * *")]⟩) ≤ 1 :=
  ⟨(c7_single_timer ConfigFetch.dataErr ⟨[(JOB_NAME, "0 0 */2 * * *")]⟩
      "0 */30 * * * *" (some 30) (by decide)).1,
   (c7_single_timer ConfigFetch.dataErr ⟨[(JOB_NAME, "0 0 */2 * * *")]⟩
      "0 */30 * * * *" (some 30) (by decide)).2.2.1,
   (c7_single_timer ConfigFetch.dataErr ⟨[(JOB_NAME, "0 0 */2 * * *")]⟩
      "0 */30 * * * *" (some 30) (by decide)).2.2.2⟩

/-- C8 counterexample: reconciling `{is_active: true, interval_minutes: -5}`
(reachable, since the config endpoint does not validate the value)
produces a minutes expression with step -5, whose `CronJob` constructor
throws AFTER `stopCron` has already disarmed the previous timer: the
failure is swallowed, but the previously armed every-2-hours timer is
gone, refuting "the previously armed timer state is left intact when
reconciliation fails". -/
theorem c8_counterexample :
    (setupSchedulerBody (ConfigFetch.ok ⟨true, some (-5)⟩)
        ⟨[(JOB_NAME, "0 0 */2 * * *")]⟩).2.isSome = true
    ∧ setupScheduler (ConfigFetch.ok ⟨true, some (-5)⟩)
        ⟨[(JOB_NAME, "0 0 */2 * * *")]⟩ = ⟨[]⟩
    ∧ (⟨[]⟩ : SchedState) ≠ ⟨[(JOB_NAME, "0 0 */2 * * *")]⟩ :=
  ⟨by decide, by decide, by decide⟩

/-- C8 (amended): a failure during scheduler reconciliation is never
propagated to the caller (the catch swallows it and the registry keeps
the state the body reached); when the failure occurs at the configuration
fetch — a data error or a throw before any registry mutation — the
previously armed timer state is left intact; but when arming itself
throws (the `CronJob` constructor rejects the expression, e.g. for a
negative `interval_minutes`), the previous timer has already been
disarmed, so the swallowed failure leaves the registry disarmed instead.
-/
theorem c8_failure_swallowed (f : ConfigFetch) (s : SchedState)
    (h : reconcileFailed f s) :
    (setupScheduler f s = s ∨ setupScheduler f s = stopCron s)
    ∧ ((f = ConfigFetch.dataErr ∨ ∃ e, f = ConfigFetch.thrown e) →
        setupScheduler f s = s) := by
  cases f with
  | dataErr => exact ⟨Or.inl rfl, fun _ => rfl⟩
  | thrown e => exact ⟨Or.inl rfl, fun _ => rfl⟩
  | ok c =>
    rcases c with ⟨act, iv⟩
    cases act with
    | false =>
      rcases h with h | h
      · exact absurd h (by simp)
      · exact absurd rfl h
    | true =>
      cases hc : cronCtorOk (cronExpFor iv) with
      | true =>
        rcases h with h | h
        · exact absurd h (by simp)
        · refine absurd ?_ h
          show (updateCron (cronExpFor iv) s).2 = none
          unfold updateCron
          rw [if_pos hc]
      | false =>
        constructor
        · right
          show (updateCron (cronExpFor iv) s).1 = stopCron s
          unfold updateCron
          rw [if_neg (by simp [hc])]
        · rintro (habs | ⟨e, habs⟩) <;> exact absurd habs (by simp)

/-- C8 witness: a thrown config-fetch failure leaves a previously armed
every-30-minutes timer exactly as it was, and is swallowed. -/
theorem c8_failure_swallowed_witness :
    (setupScheduler (ConfigFetch.thrown "Error: network")
          ⟨[(JOB_NAME, "0 */30 * * * *")]⟩
        = ⟨[(JOB_NAME, "0 */30 * * * *")]⟩
      ∨ setupScheduler (ConfigFetch.thrown "Error: network")
          ⟨[(JOB_NAME, "0 */30 * * * *")]⟩
        = stopCron ⟨[(JOB_NAME, "0 */30 * * * *")]⟩)
    ∧ ((ConfigFetch.thrown "Error: network" = ConfigFetch.dataErr
        ∨ ∃ e, ConfigFetch.thrown "Error: network" = ConfigFetch.thrown e) →
        setupScheduler (ConfigFetch.thrown "Error: network")
            ⟨[(JOB_NAME, "0 */30 * * * *")]⟩
          = ⟨[(JOB_NAME, "0 */30 * * * *")]⟩) :=
  c8_failure_swallowed (ConfigFetch.thrown "Error: network")
    ⟨[(JOB_NAME, "0 */30 * * * *")]⟩ (Or.inr (by decide))

/-! ## Theorems for claims C9 and C10 -/

/-- C9: for every authorization header value (matching, mismatching or
absent), the manual trigger endpoint behaves identically: it executes the
agent run and returns the same success response; a secret mismatch is only
logged, never rejected. -/
theorem c9_trigger_header_advisory (sec h1 h2 : Option String) (env : AgentRunEnv) :
    (triggerAgent sec h1 env).runOutcome = executeAgentRun env
    ∧ (triggerAgent sec h1 env).response = ⟨true, "Agent run triggered manually"⟩
    ∧ (triggerAgent sec h1 env).runOutcome = (triggerAgent sec h2 env).runOutcome
    ∧ (triggerAgent sec h1 env).response = (triggerAgent sec h2 env).response :=
  ⟨rfl, rfl, rfl, rfl⟩

/-- In every resolving run, the store's article-record flag coincides with
the resolved result's `articleCreated`. -/
theorem executePipeline_created (env : PipelineEnv) (st : PipelineStore) (r : PipelineResult)
    (h : executePipeline env = (st, Except.ok r)) :
    st.articleCreated = r.articleCreated := by
  rcases env with ⟨slug, cre, cat, seo, w, hum, vis, intr, fin, rvw, rvt⟩
  cases cre <;> cases w <;> cases rvw <;> cases rvt <;>
    simp [executePipeline, Prod.mk.injEq] at h <;>
    obtain ⟨hst, hr⟩ := h <;> subst hst <;> subst hr <;> rfl

/-- C10 counterexample: a run in which the pipeline creates the article
record, the writing stage fails, and the draft-revert write rejects, is
marked `failed` even though an article record WAS created — refuting the
claim that a run is marked failed only when no article record was created
at all. -/
theorem c10_counterexample :
    (executeAgentRun agentEnvPipelineReject).runStatus = some RunStatus.failed
    ∧ (executeAgentRun agentEnvPipelineReject).articleRecordCreated = true :=
  ⟨rfl, rfl⟩

/-- C10 (amended): whenever the pipeline resolves with an article record
carrying an id, `executeAgentRun` marks the run record `completed` and
updates the configuration's last-run timestamp — including runs whose
pipeline accumulated errors or failed fatally at the writing stage; the
run record is marked `failed` only when no article record was created at
all or when the pipeline's promise rejected (a draft-revert store failure,
which can leave a created article record behind). -/
theorem c10_run_finalization (aenv : AgentRunEnv) (r : PipelineResult) :
    (aenv.createRunErr = false → aenv.brainstormErr = none →
      (executePipeline aenv.pipelineEnv).2 = Except.ok r → r.articleCreated = true →
      (executeAgentRun aenv).runStatus = some RunStatus.completed
        ∧ (executeAgentRun aenv).lastRunUpdated = true)
    ∧ ((executeAgentRun aenv).runStatus = some RunStatus.failed →
        (executeAgentRun aenv).articleRecordCreated = false
          ∨ ∃ e, (executePipeline aenv.pipelineEnv).2 = Except.error e) := by
  rcases aenv with ⟨cr, br, penv⟩
  constructor
  · intro hcr hbr hok hart
    simp only at hcr hbr
    subst hcr; subst hbr
    rcases hp : executePipeline penv with ⟨store, res⟩
    rw [hp] at hok
    simp only at hok
    subst hok
    simp [executeAgentRun, hp, hart]
  · intro hfail
    cases cr with
    | true => simp [executeAgentRun] at hfail
    | false =>
      cases br with
      | some e2 => left; rfl
      | none =>
        rcases hp : executePipeline penv with ⟨store, res⟩
        cases res with
        | error e2 => right; exact ⟨e2, rfl⟩
        | ok r2 =>
          cases hc : r2.articleCreated with
          | true => simp [executeAgentRun, hp, hc] at hfail
          | false =>
            left
            have hcreated := executePipeline_created penv store r2 hp
            simp [executeAgentRun, hp, hc, hcreated]

/-- C10 witness: a fully successful run is marked completed and updates the
last-run timestamp. -/
theorem c10_run_finalization_witness :
    (executeAgentRun agentEnvAllOk).runStatus = some RunStatus.completed
    ∧ (executeAgentRun agentEnvAllOk).lastRunUpdated = true :=
  (c10_run_finalization agentEnvAllOk resAllOk).1 rfl rfl rfl rfl

/-! ## Theorems for claims C3, C4, C5 -/

/-- C3: evaluation at the failing input.  With one extracted placeholder
whose image generation failed (outcome `none`), the final cleanup pass
removes the token itself (so no asset-prompt token remains) but leaves the
residue "n owl" of the trailing annotation ": an owl" in the body: the
cleanup regex's class `[^n\!]` (missing backslash) stops at the letter
`n` instead of a newline, contradicting the claim that an unsubstituted
token is removed together with its whole trailing annotation. -/
theorem c3_cleanup_residue :
    visualGenerationText "Intro [IMAGE_PROMPT_1]: an owl" [none] = "Intro n owl"
    ∧ containsChars "[IMAGE_PROMPT_".data
        (visualGenerationText "Intro [IMAGE_PROMPT_1]: an owl" [none]).data = false := by
  exact ⟨by decide, by decide⟩

/-- C4 counterexample: on the claim's own body, which uses
`[ASSET_PROMPT_k]` tokens, `extractImagePrompts` finds nothing at all
(the code scans for `[IMAGE_PROMPT_k]`), so it does not yield the claimed
prompts. -/
theorem c4_counterexample :
    extractImagePrompts "## A\n[ASSET_PROMPT_1]\n## B\n[ASSET_PROMPT_2]: custom prompt" = []
    ∧ (extractImagePrompts
          "## A\n[ASSET_PROMPT_1]\n## B\n[ASSET_PROMPT_2]: custom prompt").map
        ImagePromptRef.prompt
        ≠ ["Illustration for: A", "custom prompt"] := by
  exact ⟨by decide, by decide⟩

/-- C4 (amended): with the code's actual `[IMAGE_PROMPT_n]` token
spelling, extraction returns the placeholders in order of first appearance
with the prompt taken from the adjacent colon annotation when present and
otherwise synthesized from the nearest preceding H2 heading: on
"## A\n[IMAGE_PROMPT_1]\n## B\n[IMAGE_PROMPT_2]: custom prompt" it yields
exactly ["Illustration for: A", "custom prompt"] in that order. -/
theorem c4_extract_prompts_ordered :
    extractImagePrompts "## A\n[IMAGE_PROMPT_1]\n## B\n[IMAGE_PROMPT_2]: custom prompt"
      = [⟨"Illustration for: A", "[IMAGE_PROMPT_1]"⟩,
         ⟨"custom prompt", "[IMAGE_PROMPT_2]"⟩] := by
  decide

/-- C5: the first delivered event is the single acknowledgement with stage
"System"; a subsequent event is delivered iff it is a published bus event
whose topic equals the subscribed topic after lowercasing and trimming
both sides (exact match, never substring); in particular a subscriber to
"Rust" receives the event published with topic "rust " and not the one
with topic "go". -/
theorem c5_stream_topic_filter (sub : String) (pub : List BusEvent) (d : SseData) :
    (streamDelivered sub pub).head? = some connectedAck
    ∧ connectedAck.stage = "System"
    ∧ (d ∈ (streamDelivered sub pub).tail ↔
        ∃ e, e ∈ pub ∧ topicMatches sub e = true ∧ d = ⟨e.message, e.stage⟩)
    ∧ streamDelivered "Rust" [⟨"rust ", "writing", "m1"⟩, ⟨"go", "writing", "m2"⟩]
        = [connectedAck, ⟨"m1", "writing"⟩] := by
  refine ⟨rfl, rfl, ?_, by decide⟩
  simp only [streamDelivered, List.tail_cons, List.mem_map, List.mem_filter]
  constructor
  · rintro ⟨e, ⟨he, hm⟩, heq⟩
    exact ⟨e, he, hm, heq.symm⟩
  · rintro ⟨e, he, hm, heq⟩
    exact ⟨e, ⟨he, hm⟩, heq.symm⟩

/-- C5 witness: the acknowledgement heads the delivered sequence of the
concrete "Rust" subscription. -/
theorem c5_stream_topic_filter_witness :
    (streamDelivered "Rust" [⟨"rust ", "writing", "m1"⟩, ⟨"go", "writing", "m2"⟩]).head?
      = some connectedAck :=
  (c5_stream_topic_filter "Rust"
    [⟨"rust ", "writing", "m1"⟩, ⟨"go", "writing", "m2"⟩] connectedAck).1
